import Mathlib

/-!
Verification of the qubes connection plugin (`ansible_module/conns/qubes.py`).

Text is embedded as `List Char` (Python `str`), byte payloads as `List Nat`
(Python `bytes`, each element a byte value).  The external `qvm-run` tool is
embedded as an oracle `Dispatcher : Invocation → DispatchResult` mapping the
argument vector and the byte stream written to the child's stdin to the
observed exit code, stdout and stderr.
-/

namespace Qubes

/-- A Python `str`, embedded as its list of characters. -/
abbrev Str := List Char

/-- Byte encoding of a string as written to the child's stdin
(`to_bytes` in the source, embedded as the injective codepoint map). -/
def strBytes (s : Str) : List Nat := s.map Char.toNat

/-- One spawned dispatcher child process: its argument vector and the byte
stream delivered to its input. -/
structure Invocation where
  argv : List Str
  stdinBytes : List Nat
  deriving DecidableEq, Repr

/-- The outcome of one dispatcher invocation: `p.returncode, stdout, stderr`. -/
structure DispatchResult where
  returncode : Int
  stdout : List Nat
  stderr : List Nat
  deriving DecidableEq, Repr

/-- The external `qvm-run` tool, as an oracle from an invocation to its
observed result. -/
abbrev Dispatcher := Invocation → DispatchResult

/-- Connection state: `self._remote_vmname`, `self.user`, `self._connected`. -/
structure Conn where
  vmname : Str
  user : Str
  connected : Bool
  deriving DecidableEq, Repr

/-- Errors raised by the connection operations. -/
inductive ConnError where
  | notConnected
  | putFailed (path : Str)
  | fetchFailed (path : Str)
  deriving DecidableEq, Repr

/-- Constructor `Connection.__init__`: `self._connected = False`,
`self.user = "user"` unless a truthy `remote_user` is configured. -/
def mkConnection (remote_addr : Str) (remote_user : Option Str) : Conn :=
  { vmname := remote_addr
    user := match remote_user with
      | none => "user".toList
      | some u => if u.isEmpty then "user".toList else u
    connected := false }

/-- Python `cmd.endswith("\n")` on the embedded string. -/
def endswithNL (cmd : Str) : Bool := cmd.getLast? == some '\n'

/-- The newline normalization in `Connection._qubes`:
`if not cmd.endswith("\n"): cmd = cmd + "\n"`. -/
def normalizeCmd (cmd : Str) : Str :=
  if endswithNL cmd then cmd else cmd ++ ['\n']

/-- The argument vector built in `Connection._qubes`:
`["qvm-run", "--pass-io", "--service"]`, then `["-u", user]` when
`self.user != "user"`, then the VM name, then the service name. -/
def buildArgv (vmname user shell : Str) : List Str :=
  let local_cmd : List Str := []
  let local_cmd := local_cmd ++ ["qvm-run".toList, "--pass-io".toList, "--service".toList]
  let local_cmd := if user ≠ "user".toList then local_cmd ++ ["-u".toList, user] else local_cmd
  let local_cmd := local_cmd ++ [vmname]
  local_cmd ++ [shell]

/-- The invocation `Connection._qubes` performs: the built argument vector,
and the normalized command bytes followed by `in_data` on the child's stdin. -/
def qubesInvocation (c : Conn) (cmd : Str) (in_data : List Nat) (shell : Str) : Invocation :=
  { argv := buildArgv c.vmname c.user shell
    stdinBytes := strBytes (normalizeCmd cmd) ++ in_data }

/-- `Connection._qubes`: run the dispatcher on the built invocation and
return `(p.returncode, stdout, stderr)`. -/
def qubesRun (d : Dispatcher) (c : Conn) (cmd : Str) (in_data : List Nat) (shell : Str) :
    DispatchResult :=
  d (qubesInvocation c cmd in_data shell)

/-- The default shell service name (`_qubes`'s `shell` default). -/
def vmShell : Str := "qubes.VMShell".toList

/-- The privileged shell service name used first by `put_file`. -/
def vmRootShell : Str := "qubes.VMRootShell".toList

/-- Modelled from the spec: the `ensure_connect` gating inherited from the
connection base class (not under `src/`) — an operation invoked while
`connected == false` fails with the not-connected error instead of running. -/
def requireConnected {α : Type} (c : Conn) (body : Except ConnError α) :
    Except ConnError α :=
  if c.connected then body else .error .notConnected

/-- `Connection.exec_command`: runs `self._qubes(cmd)` — the default shell
service, and the `in_data` argument is not forwarded. -/
def exec_command (d : Dispatcher) (c : Conn) (cmd : Str) (in_data : Option (List Nat)) :
    Except ConnError (Int × List Nat × List Nat) :=
  requireConnected c
    (let r := qubesRun d c cmd [] vmShell
     .ok (r.returncode, r.stdout, r.stderr))

/-- The framed command text `'cat > "{0}"\n'.format(out_path)` of `put_file`. -/
def putCmdText (out_path : Str) : Str :=
  "cat > \"".toList ++ out_path ++ "\"\n".toList

/-- `Connection.put_file` given the bytes read from the local file:
try `qubes.VMRootShell`; on exit code 127 retry once with the default
service; raise the put-failed error when the final code is non-zero. -/
def put_file (d : Dispatcher) (c : Conn) (source_data : List Nat) (out_path : Str) :
    Except ConnError Unit :=
  requireConnected c
    (let r1 := qubesRun d c (putCmdText out_path) source_data vmRootShell
     let retcode :=
       if r1.returncode = 127 then
         (qubesRun d c (putCmdText out_path) source_data vmShell).returncode
       else r1.returncode
     if retcode ≠ 0 then .error (.putFailed out_path) else .ok ())

/-- The sequence of dispatcher invocations `put_file` performs, in order. -/
def put_trace (d : Dispatcher) (c : Conn) (source_data : List Nat) (out_path : Str) :
    List Invocation :=
  if c.connected then
    let i1 := qubesInvocation c (putCmdText out_path) source_data vmRootShell
    if (d i1).returncode = 127 then
      [i1, qubesInvocation c (putCmdText out_path) source_data vmShell]
    else [i1]
  else []

/-- The argument vector of `Connection.fetch_file`:
`["qvm-run", "--pass-io", self._remote_vmname, "cat {0}".format(in_path)]`. -/
def fetchArgv (c : Conn) (in_path : Str) : List Str :=
  ["qvm-run".toList, "--pass-io".toList, c.vmname, "cat ".toList ++ in_path]

/-- `Connection.fetch_file` given the previous content of the local file:
the child's stdout is redirected to the (truncated) local file, and a
non-zero exit code raises the fetch-failed error naming `out_path`.
Returns the resulting local file content together with the outcome. -/
def fetch_file (d : Dispatcher) (c : Conn) (prevFile : List Nat) (in_path out_path : Str) :
    List Nat × Except ConnError Unit :=
  if c.connected then
    let r := d { argv := fetchArgv c in_path, stdinBytes := [] }
    (r.stdout, if r.returncode ≠ 0 then .error (.fetchFailed out_path) else .ok ())
  else (prevFile, .error .notConnected)

/-- `Connection._connect`: sets `self._connected = True`. -/
def connect (c : Conn) : Conn := { c with connected := true }

/-- `Connection.close`: sets `self._connected = False`. -/
def close (c : Conn) : Conn := { c with connected := false }

/-- The exit code `put_file` inspects after the possible fallback: the first
invocation's code, or the retry's code when the first returned 127. -/
def finalRetcode (d : Dispatcher) (c : Conn) (source_data : List Nat) (out_path : Str) : Int :=
  let r1 := qubesRun d c (putCmdText out_path) source_data vmRootShell
  if r1.returncode = 127 then
    (qubesRun d c (putCmdText out_path) source_data vmShell).returncode
  else r1.returncode

/-- `strBytes` distributes over append. -/
theorem strBytes_append (a b : Str) : strBytes (a ++ b) = strBytes a ++ strBytes b :=
  List.map_append _ a b

/-- The framed put command always ends with a newline, so the dispatcher
layer appends none. -/
theorem endswithNL_putCmdText (out_path : Str) : endswithNL (putCmdText out_path) = true := by
  have h : putCmdText out_path = ("cat > \"".toList ++ out_path ++ ['"']) ++ ['\n'] := by
    simp [putCmdText]
  unfold endswithNL
  rw [h, List.getLast?_concat]
  rfl

/-- Example connection with the platform-default user, already connected. -/
def connEx : Conn := { vmname := "work".toList, user := "user".toList, connected := true }

/-- Example dispatcher returning a fixed exit code and stdout `[104, 105]`. -/
def dispEx (n : Int) : Dispatcher :=
  fun _ => { returncode := n, stdout := [104, 105], stderr := [] }

/-- C1: when the first (privileged-service) invocation of `put_file` returns
exit code exactly 127, exactly one retry follows, using the default shell
service with an identical input stream (command text and payload); any other
first exit code yields exactly one invocation and no retry. -/
theorem put_fallback (d : Dispatcher) (c : Conn) (source_data : List Nat) (out_path : Str)
    (hc : c.connected = true) :
    ((d (qubesInvocation c (putCmdText out_path) source_data vmRootShell)).returncode = 127 →
      put_trace d c source_data out_path =
        [qubesInvocation c (putCmdText out_path) source_data vmRootShell,
         qubesInvocation c (putCmdText out_path) source_data vmShell] ∧
      (qubesInvocation c (putCmdText out_path) source_data vmShell).stdinBytes =
        (qubesInvocation c (putCmdText out_path) source_data vmRootShell).stdinBytes) ∧
    ((d (qubesInvocation c (putCmdText out_path) source_data vmRootShell)).returncode ≠ 127 →
      put_trace d c source_data out_path =
        [qubesInvocation c (putCmdText out_path) source_data vmRootShell]) := by
  unfold put_trace
  rw [hc]
  constructor
  · intro h127
    rw [if_pos rfl, if_pos h127]
    exact ⟨rfl, rfl⟩
  · intro hne
    rw [if_pos rfl, if_neg hne]

theorem put_fallback_witness :
    put_trace (dispEx 127) connEx [3] "/a".toList =
      [qubesInvocation connEx (putCmdText "/a".toList) [3] vmRootShell,
       qubesInvocation connEx (putCmdText "/a".toList) [3] vmShell] :=
  ((put_fallback (dispEx 127) connEx [3] "/a".toList rfl).1 rfl).1

/-- C2: the byte stream written to the child's input is the command followed
by exactly one appended newline when the command does not already end in one,
and the command unchanged when it does; `in_data` follows in both cases. -/
theorem cmd_newline_normalization (c : Conn) (cmd : Str) (in_data : List Nat) (shell : Str) :
    (endswithNL cmd = false →
      (qubesInvocation c cmd in_data shell).stdinBytes =
        strBytes cmd ++ Char.toNat '\n' :: in_data) ∧
    (endswithNL cmd = true →
      (qubesInvocation c cmd in_data shell).stdinBytes = strBytes cmd ++ in_data) := by
  constructor <;> intro h <;>
    simp [qubesInvocation, normalizeCmd, h, strBytes, List.map_append]

theorem cmd_newline_normalization_witness :
    (qubesInvocation connEx "ls".toList [7] vmShell).stdinBytes =
      strBytes "ls".toList ++ Char.toNat '\n' :: [7] :=
  (cmd_newline_normalization connEx "ls".toList [7] vmShell).1 (by decide)

/-- C3: the built argument vector is
`[base flags, optional user override, target name, service name]`: no `-u`
pair when the user is the platform default `"user"`, and exactly the pair
`-u <user>` between the base flags and the target name otherwise. -/
theorem argv_user_flag (vmname user shell : Str) :
    (user = "user".toList →
      buildArgv vmname user shell =
        ["qvm-run".toList, "--pass-io".toList, "--service".toList, vmname, shell]) ∧
    (user ≠ "user".toList →
      buildArgv vmname user shell =
        ["qvm-run".toList, "--pass-io".toList, "--service".toList,
         "-u".toList, user, vmname, shell]) := by
  constructor <;> intro h
  · unfold buildArgv
    dsimp only
    rw [if_neg (fun hn => hn h)]
    rfl
  · unfold buildArgv
    dsimp only
    rw [if_pos h]
    rfl

theorem argv_user_flag_witness :
    buildArgv "work".toList "root".toList vmShell =
      ["qvm-run".toList, "--pass-io".toList, "--service".toList,
       "-u".toList, "root".toList, "work".toList, vmShell] :=
  (argv_user_flag "work".toList "root".toList vmShell).2 (by decide)

/-- C4: every dispatcher invocation performed by `put_file` receives on its
input exactly the framed command `cat > "<out_path>"` (newline-terminated,
path inserted verbatim) followed by exactly the source file's bytes. -/
theorem put_stream (d : Dispatcher) (c : Conn) (source_data : List Nat) (out_path : Str)
    (hc : c.connected = true) :
    ∀ inv ∈ put_trace d c source_data out_path,
      inv.stdinBytes =
        strBytes ("cat > \"".toList ++ out_path ++ "\"\n".toList) ++ source_data := by
  have hnorm : normalizeCmd (putCmdText out_path) = putCmdText out_path := by
    unfold normalizeCmd
    rw [endswithNL_putCmdText]
    exact if_pos rfl
  have hstdin : ∀ shell : Str,
      (qubesInvocation c (putCmdText out_path) source_data shell).stdinBytes =
        strBytes ("cat > \"".toList ++ out_path ++ "\"\n".toList) ++ source_data := by
    intro shell
    show strBytes (normalizeCmd (putCmdText out_path)) ++ source_data = _
    rw [hnorm]
    rfl
  intro inv hmem
  unfold put_trace at hmem
  rw [hc, if_pos rfl] at hmem
  by_cases h127 :
      (d (qubesInvocation c (putCmdText out_path) source_data vmRootShell)).returncode = 127
  · rw [if_pos h127] at hmem
    simp only [List.mem_cons, List.not_mem_nil, or_false] at hmem
    rcases hmem with h | h <;> (rw [h]; exact hstdin _)
  · rw [if_neg h127] at hmem
    simp only [List.mem_cons, List.not_mem_nil, or_false] at hmem
    rw [hmem]
    exact hstdin _

theorem put_stream_witness :
    (qubesInvocation connEx (putCmdText "/a".toList) [9] vmRootShell).stdinBytes =
      strBytes ("cat > \"".toList ++ "/a".toList ++ "\"\n".toList) ++ [9] :=
  put_stream (dispEx 0) connEx [9] "/a".toList rfl
    (qubesInvocation connEx (putCmdText "/a".toList) [9] vmRootShell) (by decide)

/-- C5: after `close`, each of `exec_command`, `put_file` and `fetch_file`
fails with the not-connected error; `fetch_file` also leaves the local file
untouched. -/
theorem closed_ops_fail (d : Dispatcher) (c : Conn) (cmd : Str) (ind : Option (List Nat))
    (data prev : List Nat) (in_path out_path : Str) :
    exec_command d (close c) cmd ind = .error .notConnected ∧
    put_file d (close c) data out_path = .error .notConnected ∧
    fetch_file d (close c) prev in_path out_path = (prev, .error .notConnected) :=
  ⟨rfl, rfl, rfl⟩

/-- C6: `put_file` raises the put-failed error naming the remote path exactly
when the final (possibly retried) exit code is non-zero, and succeeds when
that code is zero. -/
theorem put_error_iff (d : Dispatcher) (c : Conn) (source_data : List Nat) (out_path : Str)
    (hc : c.connected = true) :
    (put_file d c source_data out_path = .error (.putFailed out_path) ↔
      finalRetcode d c source_data out_path ≠ 0) ∧
    (finalRetcode d c source_data out_path = 0 →
      put_file d c source_data out_path = .ok ()) := by
  unfold put_file requireConnected finalRetcode
  rw [hc, if_pos rfl]
  by_cases h : (if (qubesRun d c (putCmdText out_path) source_data vmRootShell).returncode = 127
      then (qubesRun d c (putCmdText out_path) source_data vmShell).returncode
      else (qubesRun d c (putCmdText out_path) source_data vmRootShell).returncode) = 0 <;>
    simp [h]

theorem put_error_iff_witness :
    put_file (dispEx 1) connEx [3] "/a".toList = .error (.putFailed "/a".toList) :=
  (put_error_iff (dispEx 1) connEx [3] "/a".toList rfl).1.mpr (by decide)

/-- C7: on a non-zero exit code `fetch_file` fails with the fetch-failed
error naming the local path while the local file holds the bytes the child
wrote before failing; on exit code zero the local file holds exactly the
child's output and the call succeeds. -/
theorem fetch_outcome (d : Dispatcher) (c : Conn) (prev : List Nat) (in_path out_path : Str)
    (hc : c.connected = true) :
    ((d { argv := fetchArgv c in_path, stdinBytes := [] }).returncode ≠ 0 →
      fetch_file d c prev in_path out_path =
        ((d { argv := fetchArgv c in_path, stdinBytes := [] }).stdout,
         .error (.fetchFailed out_path))) ∧
    ((d { argv := fetchArgv c in_path, stdinBytes := [] }).returncode = 0 →
      fetch_file d c prev in_path out_path =
        ((d { argv := fetchArgv c in_path, stdinBytes := [] }).stdout, .ok ())) := by
  unfold fetch_file
  rw [hc, if_pos rfl]
  constructor <;> intro h <;> simp [h]

theorem fetch_outcome_witness :
    fetch_file (dispEx 0) connEx [5] "/etc/hostname".toList "/tmp/h".toList =
      ((dispEx 0 { argv := fetchArgv connEx "/etc/hostname".toList, stdinBytes := [] }).stdout,
       .ok ()) :=
  (fetch_outcome (dispEx 0) connEx [5] "/etc/hostname".toList "/tmp/h".toList rfl).2 rfl

/-- C8: the connected flag starts false, `connect` sets it true, `close`
sets it false and is idempotent, and `connect; close; connect` restores a
connected state. -/
theorem lifecycle (remote_addr : Str) (remote_user : Option Str) (c : Conn) :
    (mkConnection remote_addr remote_user).connected = false ∧
    (connect c).connected = true ∧
    (close c).connected = false ∧
    close (close c) = close c ∧
    (connect (close (connect c))).connected = true :=
  ⟨rfl, rfl, rfl, rfl, rfl⟩

/-- C9: `exec_command` never forwards its `in_data` argument, so its result
is identical for any two values of it. -/
theorem exec_ignores_in_data (d : Dispatcher) (c : Conn) (cmd : Str)
    (in1 in2 : Option (List Nat)) :
    exec_command d c cmd in1 = exec_command d c cmd in2 :=
  rfl

/-- C10: the fetch argument vector is independent of the connection's user
and never contains the `-u` override flag (given the VM name is not itself
the literal `-u`). -/
theorem fetch_no_user_flag (c : Conn) (in_path u : Str) :
    fetchArgv { c with user := u } in_path = fetchArgv c in_path ∧
    (c.vmname ≠ "-u".toList → "-u".toList ∉ fetchArgv c in_path) := by
  refine ⟨rfl, fun hv hmem => ?_⟩
  simp only [fetchArgv, List.mem_cons, List.not_mem_nil, or_false] at hmem
  rcases hmem with h | h | h | h
  · exact absurd h (by decide)
  · exact absurd h (by decide)
  · exact hv h.symm
  · have h2 : ('-' :: 'u' :: ([] : Str)) = 'c' :: (['a', 't', ' '] ++ in_path) := h
    injection h2 with h3 _
    exact absurd h3 (by decide)

theorem fetch_no_user_flag_witness :
    "-u".toList ∉ fetchArgv connEx "/etc/hostname".toList :=
  (fetch_no_user_flag connEx "/etc/hostname".toList "root".toList).2 (by decide)

end Qubes
